import Mathlib

/-!
Verification of the PlanGenie orchestrator (factory.py) against its
natural-language specification.  The Python code is shallowly embedded:
pure fragments become Lean functions, in-place mutation becomes explicit
state passing, exceptions become Option/Except, and `datetime` values are
modelled as explicit year/month/day(/seconds) records.
-/

namespace PlanGenie

/-- Calendar date, as carried by a Python `datetime` with the time part zero
(the result of `datetime.strptime(s, "%Y-%m-%d")`). -/
structure Date where
  year : Nat
  month : Nat
  day : Nat
deriving DecidableEq, Repr

/-- An instant, as returned by `datetime.now()`: a calendar date plus the
seconds elapsed since midnight (0 ≤ sec < 86400). -/
structure DateTime where
  date : Date
  sec : Nat
deriving DecidableEq, Repr

/-- Gregorian leap-year test, as in Python `calendar`/`datetime`. -/
def isLeap (y : Nat) : Bool :=
  (y % 4 == 0 && y % 100 != 0) || y % 400 == 0

/-- Number of days in a month, as validated by the `datetime` constructor. -/
def daysInMonth (y m : Nat) : Nat :=
  if m = 2 then (if isLeap y then 29 else 28)
  else if m = 4 ∨ m = 6 ∨ m = 9 ∨ m = 11 then 30
  else 31

/-- Validity of a date exactly as the `datetime` constructor checks it
(MINYEAR = 1, MAXYEAR = 9999, valid month, valid day for the month). -/
def validDate (d : Date) : Bool :=
  1 ≤ d.year && d.year ≤ 9999 && 1 ≤ d.month && d.month ≤ 12 &&
    1 ≤ d.day && d.day ≤ daysInMonth d.year d.month

/-- Order-embedding key for dates: for in-range components this order agrees
with chronological order of Python `datetime.date`. -/
def Date.key (d : Date) : Nat :=
  (d.year * 13 + d.month) * 32 + d.day

/-- Order-embedding key for instants; comparison of keys is the Python
`datetime` comparison for in-range components. -/
def DateTime.key (t : DateTime) : Nat :=
  t.date.key * 86400 + t.sec

/-- View a parsed date as the midnight instant `strptime` produces. -/
def Date.atMidnight (d : Date) : DateTime := ⟨d, 0⟩

/-- Python `d.replace(year=y)`: returns the date with the year swapped, or
raises ValueError (modelled as `none`) when the result is invalid, e.g.
Feb 29 moved to a non-leap year. -/
def replaceYear (d : Date) (y : Nat) : Option Date :=
  let r : Date := ⟨y, d.month, d.day⟩
  if validDate r then some r else none

/-! String layer: `strptime(s, "%Y-%m-%d")` and `strftime("%Y-%m-%d")`. -/

/-- Digit value of a character, `none` for a non-digit. -/
def digitVal (c : Char) : Option Nat :=
  if c.isDigit then some (c.toNat - 48) else none

/-- Parse a non-empty all-digit character list as a natural number. -/
def parseNatAux : List Char → Nat → Option Nat
  | [], acc => some acc
  | c :: rest, acc =>
    match digitVal c with
    | some v => parseNatAux rest (acc * 10 + v)
    | none => none

/-- Parse a non-empty all-digit character list; `none` otherwise. -/
def parseNatDigits (cs : List Char) : Option Nat :=
  match cs with
  | [] => none
  | _ => parseNatAux cs 0

/-- Split a character list on the dash character (Python `re` field split
used implicitly by the `%Y-%m-%d` format regex). -/
def splitOnDash : List Char → List (List Char)
  | [] => [[]]
  | c :: rest =>
    let r := splitOnDash rest
    if c = '-' then [] :: r
    else
      match r with
      | [] => [[c]]
      | h :: t => (c :: h) :: t

/-- CPython `datetime.strptime(s, "%Y-%m-%d")`: the compiled format regex
requires exactly 4 year digits, 1-2 month digits, 1-2 day digits, a full
match of the string, and the `datetime` constructor then validates the
result (ValueError is modelled as `none`). -/
def parseYmd (s : String) : Option Date :=
  match splitOnDash s.data with
  | [ys, ms, ds] =>
    if ys.length = 4 ∧ 1 ≤ ms.length ∧ ms.length ≤ 2 ∧ 1 ≤ ds.length ∧ ds.length ≤ 2 then
      match parseNatDigits ys, parseNatDigits ms, parseNatDigits ds with
      | some y, some m, some d =>
        if validDate ⟨y, m, d⟩ then some ⟨y, m, d⟩ else none
      | _, _, _ => none
    else none
  | _ => none

/-- The decimal digit characters used by `strftime`. -/
def digitChar : Nat → Char
  | 0 => '0' | 1 => '1' | 2 => '2' | 3 => '3' | 4 => '4'
  | 5 => '5' | 6 => '6' | 7 => '7' | 8 => '8' | _ => '9'

/-- Zero-padded 2-digit rendering (`%m`, `%d`). -/
def pad2 (n : Nat) : List Char := [digitChar (n / 10 % 10), digitChar (n % 10)]

/-- Zero-padded 4-digit rendering (`%Y` for years up to 9999). -/
def pad4 (n : Nat) : List Char :=
  [digitChar (n / 1000 % 10), digitChar (n / 100 % 10),
   digitChar (n / 10 % 10), digitChar (n % 10)]

/-- Python `d.strftime("%Y-%m-%d")` for in-range dates. -/
def formatDate (d : Date) : String :=
  ⟨pad4 d.year ++ '-' :: pad2 d.month ++ '-' :: pad2 d.day⟩

/-- Python `s.strip()`: leading and trailing whitespace removed (written
over the character list so that it evaluates by kernel reduction). -/
def pyStrip (s : String) : String :=
  ⟨((s.data.dropWhile Char.isWhitespace).reverse.dropWhile Char.isWhitespace).reverse⟩

/-! The Trip Parameter Normalizer:
`Orchestrator._validate_and_normalize_intent` (factory.py 1410-1490). -/

/-- Depart-date branch of `_validate_and_normalize_intent`
(factory.py 1417-1442).  A falsy value, a `strptime` failure, or a
ValueError from `replace` leaves `depart_date` empty.  When the
current-year copy of the date is strictly before `now` (a full `datetime`
comparison, so time-of-day counts) the year becomes `now.year + 1` and the
field is rewritten; otherwise the year is `now.year`, and the original
string is kept verbatim when its year already equals `now.year`. -/
def normalizeDepart (now : DateTime) (depart : Option String) : String :=
  match depart with
  | none => ""
  | some s =>
    if s = "" then ""
    else
      match parseYmd s with
      | none => ""
      | some d =>
        match replaceYear d now.date.year with
        | none => ""
        | some cur =>
          if cur.atMidnight.key < now.key then
            match replaceYear d (now.date.year + 1) with
            | none => ""
            | some nxt => formatDate nxt
          else
            if d.year ≠ now.date.year then formatDate cur else s

/-- The sentinel strings the code treats as an absent return date
(factory.py 1448). -/
def pyNoneStrings : List String := ["", "null", "None"]

/-- Return-date branch of `_validate_and_normalize_intent`
(factory.py 1444-1480), applied after the depart date was normalized.
The inner `try` around the depart anchor swallows ValueError (leaving the
field as it was); a ValueError in the past-date fix is caught by the outer
handler, which nulls the field. -/
def normalizeReturn (now : DateTime) (depart : String) (ret : Option String) :
    Option String :=
  match ret with
  | none => none
  | some s =>
    if s ∈ pyNoneStrings then none
    else
      match parseYmd s with
      | none => none
      | some r0 =>
        let anchored : String × Date :=
          if depart = "" then (s, r0)
          else
            match parseYmd depart with
            | none => (s, r0)
            | some dep =>
              if r0.key < dep.key then
                match replaceYear r0 dep.year with
                | none => (s, r0)
                | some f1 =>
                  if f1.key ≤ dep.key then
                    match replaceYear r0 (dep.year + 1) with
                    | none => (s, r0)
                    | some f2 => (formatDate f2, f2)
                  else (formatDate f1, f1)
              else (s, r0)
        if anchored.2.atMidnight.key < now.key then
          match replaceYear anchored.2 (now.date.year + 1) with
          | none => none
          | some f =>
            if now.key < f.atMidnight.key then some (formatDate f) else some anchored.1
        else some anchored.1

/-- Date part of `_validate_and_normalize_intent`: depart first, then the
return date checked against the already-normalized depart date. -/
def validateAndNormalizeDates (now : DateTime) (depart ret : Option String) :
    String × Option String :=
  let d := normalizeDepart now depart
  (d, normalizeReturn now d ret)

/-- Year resolution exactly as the spec sentence states the (amended) rule:
take the date in the current year; if that instant is strictly before the
reference instant, use next year, else the current year. -/
def specResolveYear (now : DateTime) (m d : Nat) : Nat :=
  if (Date.atMidnight ⟨now.date.year, m, d⟩).key < now.key then
    now.date.year + 1
  else now.date.year

/-! Helper lemmas about the date layer. -/

lemma validDate_bounds {y m d : Nat} (h : validDate ⟨y, m, d⟩ = true) :
    1 ≤ y ∧ y ≤ 9999 ∧ 1 ≤ m ∧ m ≤ 12 ∧ 1 ≤ d ∧ d ≤ daysInMonth y m := by
  simp only [validDate, Bool.and_eq_true, decide_eq_true_eq] at h
  tauto

lemma digitChar_inj {a b : Nat} (ha : a < 10) (hb : b < 10)
    (h : digitChar a = digitChar b) : a = b := by
  interval_cases a <;> interval_cases b <;>
    first
      | rfl
      | exact absurd h (by decide)

lemma pad4_inj {a b : Nat} (ha : a ≤ 9999) (hb : b ≤ 9999)
    (h : pad4 a = pad4 b) : a = b := by
  simp only [pad4, List.cons.injEq, and_true] at h
  obtain ⟨h1, h2, h3, h4⟩ := h
  have e1 := digitChar_inj (by omega) (by omega) h1
  have e2 := digitChar_inj (by omega) (by omega) h2
  have e3 := digitChar_inj (by omega) (by omega) h3
  have e4 := digitChar_inj (by omega) (by omega) h4
  omega

lemma formatDate_pad4_eq {y1 y2 m1 m2 d1 d2 : Nat}
    (h : formatDate ⟨y1, m1, d1⟩ = formatDate ⟨y2, m2, d2⟩) :
    pad4 y1 = pad4 y2 := by
  have hd : (formatDate ⟨y1, m1, d1⟩).data = (formatDate ⟨y2, m2, d2⟩).data := by
    rw [h]
  simp only [formatDate, List.append_assoc] at hd
  exact (List.append_inj hd (by simp [pad4])).1

lemma formatDate_year_ne {y1 y2 m d : Nat} (h1 : y1 ≤ 9999) (h2 : y2 ≤ 9999)
    (hne : y1 ≠ y2) : formatDate ⟨y1, m, d⟩ ≠ formatDate ⟨y2, m, d⟩ := by
  intro h
  exact hne (pad4_inj h1 h2 (formatDate_pad4_eq h))

lemma parseYmd_empty : parseYmd "" = none := by decide

/-- Closed form of the depart-date branch on a successfully parsed input
whose year replacement never raises. -/
lemma normalizeDepart_closed (now : DateTime) (s : String) (y m d : Nat)
    (hp : parseYmd s = some ⟨y, m, d⟩)
    (hcur : validDate ⟨now.date.year, m, d⟩ = true)
    (hnxt : validDate ⟨now.date.year + 1, m, d⟩ = true) :
    normalizeDepart now (some s) =
      if (Date.atMidnight ⟨now.date.year, m, d⟩).key < now.key then
        formatDate ⟨now.date.year + 1, m, d⟩
      else if y = now.date.year then s
      else formatDate ⟨now.date.year, m, d⟩ := by
  have hs : s ≠ "" := by
    intro he
    rw [he, parseYmd_empty] at hp
    exact Option.noConfusion hp
  simp only [normalizeDepart, hs, if_false, hp, replaceYear, hcur, if_true, hnxt]
  by_cases hlt : (Date.atMidnight ⟨now.date.year, m, d⟩).key < now.key
  · simp [hlt]
  · by_cases hy : y = now.date.year <;> simp [hlt, hy]

/-- C1 (claim as stated): with reference instant noon of 2025-06-15, the
depart date June 15 (a day/month equal to the reference day) is resolved to
2026, not to the current year 2025 as the claim asserts. -/
theorem c1_counterexample :
    normalizeDepart ⟨⟨2025, 6, 15⟩, 43200⟩ (some "2024-06-15") = "2026-06-15" ∧
    "2026-06-15" ≠ "2025-06-15" := by
  exact ⟨by decide, by decide⟩

/-- C1 (amended): year disambiguation compares the current-year date at
midnight against the full reference instant, so the resolved year is the
current year exactly when that midnight instant is not strictly before the
reference instant (a date equal to today therefore rolls to next year
whenever the reference time is past midnight); the output is the
canonically formatted resolved date, the input string itself when its year
was already the current year; the function of `now` and the input is
deterministic by construction. -/
theorem c1_year_disambiguation (now : DateTime) (s : String) (y m d : Nat)
    (hp : parseYmd s = some ⟨y, m, d⟩)
    (hcur : validDate ⟨now.date.year, m, d⟩ = true)
    (hnxt : validDate ⟨now.date.year + 1, m, d⟩ = true) :
    normalizeDepart now (some s) =
      if specResolveYear now m d = now.date.year + 1 then
        formatDate ⟨now.date.year + 1, m, d⟩
      else if y = now.date.year then s
      else formatDate ⟨now.date.year, m, d⟩ := by
  rw [normalizeDepart_closed now s y m d hp hcur hnxt]
  by_cases hlt : (Date.atMidnight ⟨now.date.year, m, d⟩).key < now.key
  · simp [specResolveYear, hlt]
  · simp [specResolveYear, hlt]

/-- C1 witness: a concrete instantiation of the amended theorem. -/
theorem c1_year_disambiguation_witness :
    normalizeDepart ⟨⟨2025, 3, 10⟩, 0⟩ (some "2025-06-15") = "2025-06-15" := by
  exact (c1_year_disambiguation ⟨⟨2025, 3, 10⟩, 0⟩ "2025-06-15" 2025 6 15
    (by decide) (by decide) (by decide)).trans (by decide)

/-- C2: at reference date 2024-01-15 with depart 2024-12-12 and return
2024-02-29, the leap-day year replacement raises ValueError inside the
anchor fix, the exception is swallowed, and the returned return_date
2024-02-29 precedes the depart date — the code misses its own stated goal
of returning a return date not before the depart date.  The third conjunct
shows the mechanism working as documented on Scenario D (return 2024-01-05,
depart 2024-12-12, resolved to 2025-01-05). -/
theorem c2_leap_day_return_before_depart :
    validateAndNormalizeDates ⟨⟨2024, 1, 15⟩, 0⟩
        (some "2024-12-12") (some "2024-02-29") =
      ("2024-12-12", some "2024-02-29") ∧
    Date.key ⟨2024, 2, 29⟩ < Date.key ⟨2024, 12, 12⟩ ∧
    validateAndNormalizeDates ⟨⟨2024, 11, 1⟩, 0⟩
        (some "2024-12-12") (some "2024-01-05") =
      ("2024-12-12", some "2025-01-05") := by
  exact ⟨by decide, by decide, by decide⟩

/-- C7 (claim as stated): a canonical date whose year is not the resolved
year is rewritten by the normalizer, so canonical input is not returned
unchanged. -/
theorem c7_counterexample :
    normalizeDepart ⟨⟨2025, 1, 1⟩, 0⟩ (some "2023-06-15") = "2025-06-15" ∧
    "2025-06-15" ≠ "2023-06-15" := by
  exact ⟨by decide, by decide⟩

/-- C7 (amended): the normalizer returns an already-canonical depart date
unchanged exactly when its year component equals the year the
disambiguation rule resolves; otherwise the year is rewritten. -/
theorem c7_canonical_roundtrip_iff (now : DateTime) (y m d : Nat)
    (hp : parseYmd (formatDate ⟨y, m, d⟩) = some ⟨y, m, d⟩)
    (hcur : validDate ⟨now.date.year, m, d⟩ = true)
    (hnxt : validDate ⟨now.date.year + 1, m, d⟩ = true)
    (hy : y ≤ 9999) :
    normalizeDepart now (some (formatDate ⟨y, m, d⟩)) = formatDate ⟨y, m, d⟩ ↔
      y = specResolveYear now m d := by
  have hY : now.date.year ≤ 9999 := (validDate_bounds hcur).2.1
  have hY1 : now.date.year + 1 ≤ 9999 := (validDate_bounds hnxt).2.1
  rw [normalizeDepart_closed now _ y m d hp hcur hnxt]
  by_cases hlt : (Date.atMidnight ⟨now.date.year, m, d⟩).key < now.key
  · simp only [hlt, if_true, specResolveYear]
    constructor
    · intro h
      exact (pad4_inj hY1 hy (formatDate_pad4_eq h)).symm
    · intro h
      rw [h]
  · simp only [hlt, if_false, specResolveYear]
    by_cases hyy : y = now.date.year
    · simp [hyy]
    · simp only [hyy, if_false, iff_false]
      exact formatDate_year_ne hY hy (fun he => hyy he.symm)

/-- C7 witness: concrete instantiation of the amended round-trip theorem. -/
theorem c7_canonical_roundtrip_iff_witness :
    normalizeDepart ⟨⟨2025, 3, 10⟩, 0⟩ (some (formatDate ⟨2025, 6, 15⟩)) =
      formatDate ⟨2025, 6, 15⟩ := by
  exact (c7_canonical_roundtrip_iff ⟨⟨2025, 3, 10⟩, 0⟩ 2025 6 15
    (by decide) (by decide) (by decide) (by decide)).mpr (by decide)

/-! Data model.  Modelled from the spec: the source module `models/plan.py`
holding TripRequest, ChatPlan, ItineraryDay, Flight, Hotel and ErrorItem is
not under src/; the record shapes follow spec section 3 and the way
factory.py reads and writes their fields. -/

/-- Modelled from the spec: TripRequest (spec section 3); `trip_length`
stands for `preferences["trip_length"]`, the only preference-bag entry the
orchestrator logic reads. -/
structure TripRequest where
  origin : String
  destination : String
  depart_date : String
  return_date : Option String
  adults : Nat
  children : Nat
  budget : Option String
  trip_length : Option Nat
deriving DecidableEq, Repr

/-- Modelled from the spec: a Flight option; its payload is opaque to the
orchestrator logic the claims concern. -/
structure Flight where
  data : String
deriving DecidableEq, Repr

/-- Modelled from the spec: a Hotel option; payload opaque to the
orchestrator logic the claims concern. -/
structure Hotel where
  data : String
deriving DecidableEq, Repr

/-- Modelled from the spec: a Day of the itinerary, keyed by its ISO date
string; block contents are opaque to the removal/lookup logic. -/
structure ItineraryDay where
  date : String
  blocks : List String
deriving DecidableEq, Repr

/-- Modelled from the spec: an error record (agent name plus message). -/
structure ErrorItem where
  agent : String
  message : String
deriving DecidableEq, Repr

/-- Modelled from the spec: the Plan (ChatPlan) owned per conversation
thread; `days` stands for `plan.itinerary["days"]`.  The generation
timestamp metadata is omitted (it is an external clock read). -/
structure Plan where
  request : TripRequest
  flights : List Flight
  hotels : List Hotel
  days : List ItineraryDay
  summary : String
  notes : String
  errors : List ErrorItem
deriving DecidableEq, Repr

/-! Plan Editor, `itinerary_remove` branch
(`Orchestrator._handle_incremental_edit`, factory.py 609-732). -/

/-- Test for the regex `re.match` of `\d{4}-\d{2}-\d{2}` (factory.py 666):
an anchored-at-start match, trailing characters permitted. -/
def startsWithYmdShape (t : String) : Bool :=
  match t.data with
  | y1 :: y2 :: y3 :: y4 :: h1 :: m1 :: m2 :: h2 :: d1 :: d2 :: _ =>
    y1.isDigit && y2.isDigit && y3.isDigit && y4.isDigit &&
      h1 == '-' && m1.isDigit && m2.isDigit && h2 == '-' &&
      d1.isDigit && d2.isDigit
  | _ => false

/-- Normalization of `target_date` (factory.py 660-675): keep it verbatim if
it already starts with a YYYY-MM-DD shape, otherwise attempt `strptime`
with the same format and reformat on success; any failure falls back to the
verbatim string. -/
def normalizeTargetDate (t : String) : String :=
  if startsWithYmdShape t then t
  else
    match parseYmd t with
    | some d => formatDate d
    | none => t

/-- The date-match for-loop (factory.py 688-700): index of the first day
whose date equals the normalized target. -/
def findDayIdx (nt : String) : List ItineraryDay → Option Nat
  | [] => none
  | d :: rest =>
    if d.date = nt then some 0 else (findDayIdx nt rest).map (· + 1)

/-- Day resolution (factory.py 657-708): a truthy `target_date` is
normalized and looked up by exact date match; the 1-based `day_number`
branch runs only in the `elif`, i.e. when `target_date` is falsy (absent or
empty). -/
def findDayToRemove (target_date : Option String) (day_number : Option Nat)
    (days : List ItineraryDay) : Option Nat :=
  match target_date with
  | some t =>
    if t ≠ "" then findDayIdx (normalizeTargetDate t) days
    else
      match day_number with
      | some n => if 1 ≤ n ∧ n ≤ days.length then some (n - 1) else none
      | none => none
  | none =>
    match day_number with
    | some n => if 1 ≤ n ∧ n ≤ days.length then some (n - 1) else none
    | none => none

/-- Removal step (factory.py 710-732): pop the resolved index (the
dict/model conversion round-trip is content-preserving); when nothing
resolved, stream the could-not-find message (`false` flag) and leave the
itinerary untouched. -/
def applyItineraryRemove (plan : Plan) (target_date : Option String)
    (day_number : Option Nat) : Plan × Bool :=
  match findDayToRemove target_date day_number plan.days with
  | some idx => ({ plan with days := plan.days.eraseIdx idx }, true)
  | none => (plan, false)

lemma findDayIdx_unique_erase (t : String) (l : List ItineraryDay)
    (h : l.countP (fun d => decide (d.date = t)) = 1) :
    ∃ i, findDayIdx t l = some i ∧
      (l.eraseIdx i).length = l.length - 1 ∧
      (∀ d ∈ l.eraseIdx i, d.date ≠ t) ∧
      (l.eraseIdx i).Sublist l := by
  induction l with
  | nil => simp [List.countP_nil] at h
  | cons hd tl ih =>
    rw [List.countP_cons] at h
    by_cases hh : hd.date = t
    · simp [hh] at h
      refine ⟨0, by simp [findDayIdx, hh], ?_, ?_, ?_⟩
      · rw [List.eraseIdx_cons_zero]
        simp
      · rw [List.eraseIdx_cons_zero]
        exact h
      · rw [List.eraseIdx_cons_zero]
        exact List.sublist_cons_self hd tl
    · have htl : tl.countP (fun d => decide (d.date = t)) = 1 := by
        simp [hh] at h
        omega
      obtain ⟨i, hfind, hlen, habs, hsub⟩ := ih htl
      have hpos : 1 ≤ tl.length := by
        rcases tl with _ | ⟨a, tl2⟩
        · simp [List.countP_nil] at htl
        · simp
      refine ⟨i + 1, ?_, ?_, ?_, ?_⟩
      · simp [findDayIdx, hh, hfind]
      · rw [List.eraseIdx_cons_succ]
        simp only [List.length_cons]
        omega
      · rw [List.eraseIdx_cons_succ]
        intro d hd2
        rcases List.mem_cons.mp hd2 with hcase | hcase
        · rw [hcase]; exact hh
        · exact habs d hcase
      · rw [List.eraseIdx_cons_succ]
        exact hsub.cons₂ hd

/-- C4: when the target date matches exactly one day of an N-day itinerary,
the removal branch removes exactly that day: the result has N-1 days, no
day with the target date remains, and the remaining days are a sublist of
the original list (original relative order preserved). -/
theorem c4_remove_exact_match (plan : Plan) (t : String) (dn : Option Nat)
    (ht : startsWithYmdShape t = true)
    (hone : plan.days.countP (fun d => decide (d.date = t)) = 1) :
    ∃ p2, applyItineraryRemove plan (some t) dn = (p2, true) ∧
      p2.days.length = plan.days.length - 1 ∧
      (∀ d ∈ p2.days, d.date ≠ t) ∧
      p2.days.Sublist plan.days := by
  have hne : t ≠ "" := by
    intro he
    rw [he] at ht
    exact absurd ht (by decide)
  obtain ⟨i, hfind, hlen, habs, hsub⟩ := findDayIdx_unique_erase t plan.days hone
  refine ⟨{ plan with days := plan.days.eraseIdx i }, ?_, hlen, habs, hsub⟩
  simp only [applyItineraryRemove, findDayToRemove, hne, if_true,
    normalizeTargetDate, ht, ne_eq, not_false_eq_true, hfind]

/-- C4 witness: removing 2024-12-22 from a two-day itinerary. -/
theorem c4_remove_exact_match_witness :
    ∃ p2, applyItineraryRemove
        ⟨⟨"", "", "", none, 1, 0, none, none⟩, [], [],
          [⟨"2024-12-20", []⟩, ⟨"2024-12-22", []⟩], "", "", []⟩
        (some "2024-12-22") none = (p2, true) ∧
      p2.days.length =
        ([⟨"2024-12-20", []⟩, ⟨"2024-12-22", []⟩] : List ItineraryDay).length - 1 ∧
      (∀ d ∈ p2.days, d.date ≠ "2024-12-22") ∧
      p2.days.Sublist [⟨"2024-12-20", []⟩, ⟨"2024-12-22", []⟩] := by
  exact c4_remove_exact_match
    ⟨⟨"", "", "", none, 1, 0, none, none⟩, [], [],
      [⟨"2024-12-20", []⟩, ⟨"2024-12-22", []⟩], "", "", []⟩
    "2024-12-22" none (by decide) (by decide)

/-- C5 (claim as stated): a present target date that matches no day does
NOT fall back to the valid day_number 2 — the code reports could-not-find
and leaves the three-day itinerary at three days, where the claim would
have day 2 removed (two days left). -/
theorem c5_counterexample :
    applyItineraryRemove
        ⟨⟨"", "", "", none, 1, 0, none, none⟩, [], [],
          [⟨"2024-12-20", []⟩, ⟨"2024-12-21", []⟩, ⟨"2024-12-22", []⟩],
          "", "", []⟩
        (some "2024-12-25") (some 2) =
      (⟨⟨"", "", "", none, 1, 0, none, none⟩, [], [],
          [⟨"2024-12-20", []⟩, ⟨"2024-12-21", []⟩, ⟨"2024-12-22", []⟩],
          "", "", []⟩, false) ∧
    findDayToRemove (some "2024-12-25") (some 2)
        [⟨"2024-12-20", []⟩, ⟨"2024-12-21", []⟩, ⟨"2024-12-22", []⟩] = none := by
  exact ⟨by decide, by decide⟩

/-- C5 (amended): a nonempty target_date that matches no day yields the
non-fatal message and an unchanged plan regardless of day_number (the
1-based day_number fallback runs only when target_date is absent or empty,
in which case a valid day_number removes exactly that day). -/
theorem c5_resolution_order (plan : Plan) (t : String) (dn : Option Nat)
    (ht : t ≠ "")
    (hmiss : findDayIdx (normalizeTargetDate t) plan.days = none) :
    applyItineraryRemove plan (some t) dn = (plan, false) ∧
    ∀ n, 1 ≤ n → n ≤ plan.days.length →
      applyItineraryRemove plan none (some n) =
        ({ plan with days := plan.days.eraseIdx (n - 1) }, true) := by
  constructor
  · simp only [applyItineraryRemove, findDayToRemove, ht, ne_eq,
      not_false_eq_true, if_true, hmiss]
  · intro n h1 h2
    simp only [applyItineraryRemove, findDayToRemove]
    rw [if_pos ⟨h1, h2⟩]

/-- C5 witness: target "nonsense" matches nothing, so even with day_number
present the plan is unchanged; with no target_date, day 1 is removed. -/
theorem c5_resolution_order_witness :
    applyItineraryRemove
        ⟨⟨"", "", "", none, 1, 0, none, none⟩, [], [],
          [⟨"2024-12-20", []⟩], "", "", []⟩
        (some "nonsense") (some 1) =
      (⟨⟨"", "", "", none, 1, 0, none, none⟩, [], [],
          [⟨"2024-12-20", []⟩], "", "", []⟩, false) ∧
    applyItineraryRemove
        ⟨⟨"", "", "", none, 1, 0, none, none⟩, [], [],
          [⟨"2024-12-20", []⟩], "", "", []⟩
        none (some 1) =
      (⟨⟨"", "", "", none, 1, 0, none, none⟩, [], [], [], "", "", []⟩, true) := by
  have h := c5_resolution_order
    ⟨⟨"", "", "", none, 1, 0, none, none⟩, [], [],
      [⟨"2024-12-20", []⟩], "", "", []⟩
    "nonsense" (some 1) (by decide) (by decide)
  exact ⟨h.1, (h.2 1 (by decide) (by decide)).trans (by decide)⟩

/-! Plan Editor, `dates` branch (`Orchestrator._handle_incremental_edit`,
factory.py 506-576, with the exception handler at 1094-1097). -/

/-- Merge of the freshly extracted intent onto the existing request
(factory.py 529-551).  `intent` aliases `existing_plan.request`, so the
restore-assignments at lines 541-545 copy a field of the shared object onto
itself and are no-ops; the inequality guards at 536-538 compare against the
not-yet-reassigned origin/destination of that same object. -/
def mergeIntentForDates (req0 newIntent : TripRequest) : TripRequest :=
  let r1 := if newIntent.depart_date ≠ ""
    then { req0 with depart_date := newIntent.depart_date } else req0
  let r2 := match newIntent.return_date with
    | some v => { r1 with return_date := some v }
    | none => r1
  let r3 := if newIntent.origin ≠ "" ∧ pyStrip newIntent.origin ≠ "" ∧
      newIntent.origin ≠ req0.origin
    then { r2 with origin := newIntent.origin } else r2
  let r4 := if newIntent.destination ≠ "" ∧ pyStrip newIntent.destination ≠ "" ∧
      newIntent.destination ≠ req0.destination
    then { r3 with destination := newIntent.destination } else r3
  let r5 := if newIntent.adults ≠ 0 then { r4 with adults := newIntent.adults } else r4
  match newIntent.budget with
  | some b => if b ≠ "" then { r5 with budget := some b } else r5
  | none => r5

/-- The dates branch of `Orchestrator._handle_incremental_edit`, each
awaited sub-call given as an `Except` outcome.  Line 507 binds
`updated_plan` to the same object as `existing_plan` (no copy, despite the
comment above it), so every assignment mutates the one shared plan and the
handler's `return existing_plan` yields that object in whatever state the
failure point left it; this is modelled by returning the current state. -/
def handleEditDates (plan0 : Plan)
    (understandOutcome : Except String TripRequest)
    (flightOutcome : Except String (List Flight))
    (hotelOutcome : Except String (List Hotel))
    (itinOutcome : Except String (List ItineraryDay))
    (summaryText : String) : Plan :=
  match understandOutcome with
  | .error _ => plan0
  | .ok newIntent =>
    let req := mergeIntentForDates plan0.request newIntent
    let plan1 := { plan0 with request := req }
    match flightOutcome with
    | .error _ => plan1
    | .ok fl =>
      let plan2 := { plan1 with flights := fl }
      match hotelOutcome with
      | .error _ => plan2
      | .ok ho =>
        let plan3 := { plan2 with hotels := ho }
        match req.return_date with
        | some r =>
          if r ≠ "" then
            match itinOutcome with
            | .error _ => plan3
            | .ok ds => { plan3 with days := ds, summary := summaryText }
          else { plan3 with days := [], summary := summaryText }
        | none => { plan3 with days := [], summary := summaryText }

/-- C3: evaluating the dates edit at a run where intent extraction and the
flight agent succeed and the hotel agent then raises: the returned plan
carries the new depart/return dates and the new flights while keeping the
old hotels — a partially mutated plan, not the pre-edit plan the claim
requires (the code aliases `updated_plan = existing_plan` instead of
copying, so the exception fallback returns the mutated object). -/
theorem c3_partial_mutation_on_exception :
    handleEditDates
        ⟨⟨"NYC", "Paris", "2024-12-12", some "2024-12-20", 1, 0, none, none⟩,
          [⟨"F-old"⟩], [⟨"H-old"⟩], [⟨"2024-12-13", []⟩], "old summary", "", []⟩
        (.ok ⟨"", "", "2025-01-10", some "2025-01-20", 0, 0, none, none⟩)
        (.ok [⟨"F-new"⟩])
        (.error "hotel search failed")
        (.ok [])
        "new summary" =
      ⟨⟨"NYC", "Paris", "2025-01-10", some "2025-01-20", 1, 0, none, none⟩,
        [⟨"F-new"⟩], [⟨"H-old"⟩], [⟨"2024-12-13", []⟩], "old summary", "", []⟩ ∧
    (⟨⟨"NYC", "Paris", "2025-01-10", some "2025-01-20", 1, 0, none, none⟩,
        [⟨"F-new"⟩], [⟨"H-old"⟩], [⟨"2024-12-13", []⟩],
        "old summary", "", []⟩ : Plan) ≠
      ⟨⟨"NYC", "Paris", "2024-12-12", some "2024-12-20", 1, 0, none, none⟩,
        [⟨"F-old"⟩], [⟨"H-old"⟩], [⟨"2024-12-13", []⟩], "old summary", "", []⟩ := by
  exact ⟨by decide, by decide⟩

/-! Component Selector missing-field check
(`Orchestrator._check_missing_information`, factory.py 1780-1849). -/

/-- Python blank test `not s or not s.strip()` used by the missing checks. -/
def isBlank (s : String) : Prop := s = "" ∨ pyStrip s = ""

instance (s : String) : Decidable (isBlank s) := by
  unfold isBlank
  infer_instance

/-- `Orchestrator._check_missing_information`, translated append by
append.  The gating conditions at 1827, 1840 and 1845 use plain truthiness
(`intent.destination`, `intent.depart_date`), while the missing tests also
treat whitespace-only strings as missing; `return_date` is falsy when
absent or empty, the `trip_length` preference when absent or zero. -/
def checkMissingInformation (intent : TripRequest) (comps : List String) :
    List String :=
  let m1 : List String :=
    if "FLIGHTS" ∈ comps then
      (if isBlank intent.destination then ["destination"] else []) ++
      (if isBlank intent.depart_date then ["depart_date"] else []) ++
      (if isBlank intent.origin then ["origin"] else [])
    else []
  let m2 : List String :=
    if "HOTELS" ∈ comps then
      let a := if isBlank intent.destination ∧ "destination" ∉ m1
        then m1 ++ ["destination"] else m1
      if intent.destination ≠ "" ∧ isBlank intent.depart_date ∧ "depart_date" ∉ a
        then a ++ ["depart_date"] else a
    else m1
  if "ITINERARY" ∈ comps then
    let a := if isBlank intent.destination ∧ "destination" ∉ m2
      then m2 ++ ["destination"] else m2
    let b := if intent.destination ≠ "" ∧ isBlank intent.depart_date ∧ "depart_date" ∉ a
      then a ++ ["depart_date"] else a
    if intent.destination ≠ "" ∧ intent.depart_date ≠ "" ∧
        (intent.return_date = none ∨ intent.return_date = some "") ∧
        (intent.trip_length = none ∨ intent.trip_length = some 0)
      then b ++ ["trip_length"] else b
  else m2

/-- The per-component requirements exactly as claim C8 and spec section 4.3
state them: FLIGHTS needs destination, depart_date, origin; HOTELS needs
destination, and depart_date once destination is known; ITINERARY needs
destination, depart_date once destination is known, and a trip-length
clarification when destination and depart_date are present but both
return_date and the trip_length preference are absent. -/
def missingSpec (intent : TripRequest) (comps : List String) : List String :=
  let F := "FLIGHTS" ∈ comps
  let H := "HOTELS" ∈ comps
  let I := "ITINERARY" ∈ comps
  (if (F ∨ H ∨ I) ∧ intent.destination = "" then ["destination"] else []) ++
  (if intent.depart_date = "" ∧ (F ∨ ((H ∨ I) ∧ intent.destination ≠ ""))
    then ["depart_date"] else []) ++
  (if F ∧ intent.origin = "" then ["origin"] else []) ++
  (if I ∧ intent.destination ≠ "" ∧ intent.depart_date ≠ "" ∧
      (intent.return_date = none ∨ intent.return_date = some "") ∧
      (intent.trip_length = none ∨ intent.trip_length = some 0)
    then ["trip_length"] else [])

/-- C8: for trimmed field values (which is what the normalizer produces),
the missing-field check returns exactly the spec's per-component
requirement list, with no field reported twice. -/
theorem c8_missing_fields (intent : TripRequest) (comps : List String)
    (ho : pyStrip intent.origin = intent.origin)
    (hd : pyStrip intent.destination = intent.destination)
    (hdd : pyStrip intent.depart_date = intent.depart_date) :
    checkMissingInformation intent comps = missingSpec intent comps ∧
    (checkMissingInformation intent comps).Nodup := by
  by_cases hF : "FLIGHTS" ∈ comps <;>
    by_cases hH : "HOTELS" ∈ comps <;>
      by_cases hI : "ITINERARY" ∈ comps <;>
        by_cases h1 : intent.destination = "" <;>
          by_cases h2 : intent.depart_date = "" <;>
            by_cases h3 : intent.origin = "" <;>
              by_cases h4 : (intent.return_date = none ∨ intent.return_date = some "") <;>
                by_cases h5 : (intent.trip_length = none ∨ intent.trip_length = some 0) <;>
                  simp +decide [checkMissingInformation, missingSpec, isBlank,
                    ho, hd, hdd, hF, hH, hI, h1, h2, h3, h4, h5]

/-- C8 witness: destination known, depart date and origin missing, all
three components requested. -/
theorem c8_missing_fields_witness :
    checkMissingInformation ⟨"", "Tokyo", "", none, 1, 0, none, none⟩
        ["FLIGHTS", "HOTELS", "ITINERARY"] =
      missingSpec ⟨"", "Tokyo", "", none, 1, 0, none, none⟩
        ["FLIGHTS", "HOTELS", "ITINERARY"] ∧
    (checkMissingInformation ⟨"", "Tokyo", "", none, 1, 0, none, none⟩
        ["FLIGHTS", "HOTELS", "ITINERARY"]).Nodup := by
  exact c8_missing_fields ⟨"", "Tokyo", "", none, 1, 0, none, none⟩
    ["FLIGHTS", "HOTELS", "ITINERARY"] (by decide) (by decide) (by decide)

/-! Agent Supervisor and Plan Assembler
(`Orchestrator._run_agents_parallel`, factory.py 2017-2053;
`Orchestrator._run_flight_agent`, 2055-2093;
`Orchestrator._build_plan`, 2359-2416). -/

/-- Shape of the value stored under the `itinerary` key of an agent-result
dict: the successful itinerary agent returns a dict carrying a `days` list,
while the supervisor's error wrapper stores a bare empty list under the
lower-cased agent name (factory.py 2047-2050). -/
inductive ItineraryField
  | dictDays (days : List ItineraryDay)
  | emptyList
deriving DecidableEq, Repr

/-- A loosely-typed agent-result dict as the supervisor and the assembler
read it; `none` models an absent key, and `.get(key, default)` on an absent
key yields the default. -/
structure AgentResult where
  error : Option String := none
  flights : List Flight := []
  hotels : List Hotel := []
  itinerary : Option ItineraryField := none
  reasoning : Option String := none
deriving DecidableEq, Repr

/-- Error wrapper built at factory.py 2047-2050: a dict holding the
exception message under `error` and an empty list under the lower-cased
agent name — for ITINERARY that value is a bare list where the assembler
expects a days dict. -/
def errorWrapper (name msg : String) : AgentResult :=
  if name = "ITINERARY" then { error := some msg, itinerary := some .emptyList }
  else { error := some msg }

/-- `Orchestrator._run_agents_parallel` (factory.py 2017-2053): the
selected agents are awaited one after another in the fixed order FLIGHTS,
HOTELS, ITINERARY; each exception is caught in its own handler and replaced
by the error wrapper for that key only, so one failure never prevents the
siblings from completing or being stored. -/
def runAgentsParallel (agentsNeeded : List String)
    (flightOutcome hotelOutcome itinOutcome : Except String AgentResult) :
    List (String × AgentResult) :=
  (if "FLIGHTS" ∈ agentsNeeded then
      [("FLIGHTS", match flightOutcome with
        | .ok r => r
        | .error e => errorWrapper "FLIGHTS" e)]
    else []) ++
  (if "HOTELS" ∈ agentsNeeded then
      [("HOTELS", match hotelOutcome with
        | .ok r => r
        | .error e => errorWrapper "HOTELS" e)]
    else []) ++
  (if "ITINERARY" ∈ agentsNeeded then
      [("ITINERARY", match itinOutcome with
        | .ok r => r
        | .error e => errorWrapper "ITINERARY" e)]
    else [])

/-- Dict lookup `results.get(name, {})` over the insertion-ordered result
mapping. -/
def getResult (results : List (String × AgentResult)) (name : String) :
    AgentResult :=
  match results.find? (fun p => p.1 == name) with
  | some p => p.2
  | none => {}

/-- `Orchestrator._build_plan` (factory.py 2359-2416).  Components not in
the requested scope are emptied; the itinerary branch calls
`.get("days", [])` on the value under the `itinerary` key, which raises
AttributeError (modelled as `Except.error`) when that value is the error
wrapper's bare list; one ErrorItem is appended per result dict carrying an
`error` key.  The generated-at/sources metadata is omitted (external
clock read). -/
def buildPlan (intent : TripRequest) (results : List (String × AgentResult))
    (summary notes : String) (requested : List String) : Except String Plan := do
  let flights := if "FLIGHTS" ∈ requested then (getResult results "FLIGHTS").flights else []
  let hotels := if "HOTELS" ∈ requested then (getResult results "HOTELS").hotels else []
  let days ←
    if "ITINERARY" ∈ requested then
      match (getResult results "ITINERARY").itinerary with
      | none => pure []
      | some (.dictDays ds) => pure ds
      | some .emptyList => throw "AttributeError: list object has no attribute get"
    else pure []
  let errors := results.filterMap
    (fun p => p.2.error.map (fun e => ErrorItem.mk p.1 e))
  pure { request := intent, flights := flights, hotels := hotels, days := days,
         summary := summary, notes := notes, errors := errors }

/-- `Orchestrator._run_flight_agent` (factory.py 2055-2093): catches any
exception from the flight search call and degrades to an empty flights
list with a reasoning string; its result never carries an `error` key.
The hotel and itinerary runners (2095-2152) await their agents without a
handler, so their exceptions propagate to the supervisor loop. -/
def runFlightAgent (searchOutcome : Except String AgentResult) : AgentResult :=
  match searchOutcome with
  | .ok r => r
  | .error e =>
    { flights := [], reasoning := some ("Error searching flights: " ++ e) }

/-- C6 (claim as stated): when the one failing agent is ITINERARY, the
assembler does not produce a Plan carrying the ErrorItem — it raises,
because the error wrapper stores a bare list under `itinerary` and
`_build_plan` calls `.get` on it. -/
theorem c6_counterexample :
    buildPlan ⟨"NYC", "Paris", "2025-01-10", some "2025-01-20", 1, 0, none, none⟩
        (runAgentsParallel ["FLIGHTS", "HOTELS", "ITINERARY"]
          (.ok { flights := [⟨"F1"⟩] })
          (.ok { hotels := [⟨"H1"⟩] })
          (.error "itinerary boom"))
        "s" "" ["FLIGHTS", "HOTELS", "ITINERARY"] =
      .error "AttributeError: list object has no attribute get" := by
  rfl

/-- C6 (amended): with all three agents selected, a single HOTELS (or
FLIGHTS) failure leaves every sibling's result in the mapping, wraps the
failure under its own key, and the assembled Plan carries the siblings'
full data plus exactly one ErrorItem naming the failed agent; a single
ITINERARY failure instead makes the assembler raise, so no Plan is
produced for that case. -/
theorem c6_single_failure_isolated
    (fRes hRes iRes : AgentResult) (ds : List ItineraryDay) (msg : String)
    (hf : fRes.error = none) (hh : hRes.error = none) (hi : iRes.error = none)
    (hid : iRes.itinerary = some (.dictDays ds))
    (intent : TripRequest) (summary notes : String) :
    (runAgentsParallel ["FLIGHTS", "HOTELS", "ITINERARY"]
        (.ok fRes) (.error msg) (.ok iRes) =
      [("FLIGHTS", fRes), ("HOTELS", errorWrapper "HOTELS" msg),
        ("ITINERARY", iRes)]) ∧
    (buildPlan intent
        (runAgentsParallel ["FLIGHTS", "HOTELS", "ITINERARY"]
          (.ok fRes) (.error msg) (.ok iRes))
        summary notes ["FLIGHTS", "HOTELS", "ITINERARY"] =
      .ok ⟨intent, fRes.flights, [], ds, summary, notes, [⟨"HOTELS", msg⟩]⟩) ∧
    (buildPlan intent
        (runAgentsParallel ["FLIGHTS", "HOTELS", "ITINERARY"]
          (.error msg) (.ok hRes) (.ok iRes))
        summary notes ["FLIGHTS", "HOTELS", "ITINERARY"] =
      .ok ⟨intent, [], hRes.hotels, ds, summary, notes, [⟨"FLIGHTS", msg⟩]⟩) ∧
    (∃ e, buildPlan intent
        (runAgentsParallel ["FLIGHTS", "HOTELS", "ITINERARY"]
          (.ok fRes) (.ok hRes) (.error msg))
        summary notes ["FLIGHTS", "HOTELS", "ITINERARY"] = .error e) := by
  refine ⟨?_, ?_, ?_, ?_⟩
  · simp +decide [runAgentsParallel]
  · simp +decide [buildPlan, runAgentsParallel, getResult, errorWrapper,
      List.find?, hf, hh, hi, hid]
    try rfl
  · simp +decide [buildPlan, runAgentsParallel, getResult, errorWrapper,
      List.find?, hf, hh, hi, hid]
    try rfl
  · refine ⟨"AttributeError: list object has no attribute get", ?_⟩
    simp +decide [buildPlan, runAgentsParallel, getResult, errorWrapper,
      List.find?, hf, hh, hi, hid]
    try rfl

/-- C6 witness: concrete instantiation of the amended theorem. -/
theorem c6_single_failure_isolated_witness :
    buildPlan ⟨"NYC", "Paris", "2025-01-10", some "2025-01-20", 1, 0, none, none⟩
        (runAgentsParallel ["FLIGHTS", "HOTELS", "ITINERARY"]
          (.ok { flights := [⟨"F1"⟩] })
          (.error "hotels boom")
          (.ok { itinerary := some (.dictDays [⟨"2025-01-11", []⟩]) }))
        "sum" "" ["FLIGHTS", "HOTELS", "ITINERARY"] =
      .ok ⟨⟨"NYC", "Paris", "2025-01-10", some "2025-01-20", 1, 0, none, none⟩,
        [⟨"F1"⟩], [], [⟨"2025-01-11", []⟩], "sum", "",
        [⟨"HOTELS", "hotels boom"⟩]⟩ := by
  exact (c6_single_failure_isolated
    { flights := [⟨"F1"⟩] } {} { itinerary := some (.dictDays [⟨"2025-01-11", []⟩]) }
    [⟨"2025-01-11", []⟩] "hotels boom" rfl rfl rfl rfl
    ⟨"NYC", "Paris", "2025-01-10", some "2025-01-20", 1, 0, none, none⟩
    "sum" "").2.1

/-- C10 (claim as stated): the claim's final clause — itinerary agent
exceptions, like hotel ones, become ErrorItems — is false: the supervisor
does wrap the itinerary exception, but plan assembly then raises on the
wrapper's bare `itinerary` list, so no Plan carrying an ITINERARY
ErrorItem is ever produced. -/
theorem c10_counterexample :
    buildPlan ⟨"BOS", "Rome", "2025-02-01", some "2025-02-08", 2, 0, none, none⟩
        (runAgentsParallel ["FLIGHTS", "HOTELS", "ITINERARY"]
          (.ok (runFlightAgent (.error "serp down")))
          (.ok { hotels := [⟨"H2"⟩] })
          (.error "itin down"))
        "sum2" "" ["FLIGHTS", "HOTELS", "ITINERARY"] =
      .error "AttributeError: list object has no attribute get" := by
  rfl

/-- C10 (amended): an exception inside the flight search is absorbed by the
flight runner (empty flights, explanatory reasoning, no error key), so the
assembled Plan carries no FLIGHTS ErrorItem for it; a hotel agent exception
in the same run propagates and does become an ErrorItem; an itinerary agent
exception also propagates to the supervisor's error wrapper, but assembly
then raises on the wrapper, so it never becomes an ErrorItem in a produced
Plan either. -/
theorem c10_flight_failures_not_error_items
    (e msg : String) (hRes iRes : AgentResult) (ds : List ItineraryDay)
    (hh : hRes.error = none) (hi : iRes.error = none)
    (hid : iRes.itinerary = some (.dictDays ds))
    (intent : TripRequest) (summary notes : String) :
    (runFlightAgent (.error e)).error = none ∧
    (runFlightAgent (.error e)).flights = [] ∧
    (runFlightAgent (.error e)).reasoning =
      some ("Error searching flights: " ++ e) ∧
    (buildPlan intent
        (runAgentsParallel ["FLIGHTS", "HOTELS", "ITINERARY"]
          (.ok (runFlightAgent (.error e))) (.ok hRes) (.ok iRes))
        summary notes ["FLIGHTS", "HOTELS", "ITINERARY"] =
      .ok ⟨intent, [], hRes.hotels, ds, summary, notes, []⟩) ∧
    (buildPlan intent
        (runAgentsParallel ["FLIGHTS", "HOTELS", "ITINERARY"]
          (.ok (runFlightAgent (.error e))) (.error msg) (.ok iRes))
        summary notes ["FLIGHTS", "HOTELS", "ITINERARY"] =
      .ok ⟨intent, [], [], ds, summary, notes, [⟨"HOTELS", msg⟩]⟩) ∧
    (buildPlan intent
        (runAgentsParallel ["FLIGHTS", "HOTELS", "ITINERARY"]
          (.ok (runFlightAgent (.error e))) (.ok hRes) (.error msg))
        summary notes ["FLIGHTS", "HOTELS", "ITINERARY"] =
      .error "AttributeError: list object has no attribute get") := by
  refine ⟨rfl, rfl, rfl, ?_, ?_, ?_⟩
  · simp +decide [buildPlan, runAgentsParallel, runFlightAgent, getResult,
      errorWrapper, List.find?, hh, hi, hid]
    try rfl
  · simp +decide [buildPlan, runAgentsParallel, runFlightAgent, getResult,
      errorWrapper, List.find?, hh, hi, hid]
    try rfl
  · simp +decide [buildPlan, runAgentsParallel, runFlightAgent, getResult,
      errorWrapper, List.find?, hh, hi, hid]
    try rfl

/-- C10 witness: concrete instantiation. -/
theorem c10_flight_failures_not_error_items_witness :
    buildPlan ⟨"NYC", "Paris", "2025-01-10", some "2025-01-20", 1, 0, none, none⟩
        (runAgentsParallel ["FLIGHTS", "HOTELS", "ITINERARY"]
          (.ok (runFlightAgent (.error "serp down")))
          (.ok { hotels := [⟨"H1"⟩] })
          (.ok { itinerary := some (.dictDays [⟨"2025-01-11", []⟩]) }))
        "sum" "" ["FLIGHTS", "HOTELS", "ITINERARY"] =
      .ok ⟨⟨"NYC", "Paris", "2025-01-10", some "2025-01-20", 1, 0, none, none⟩,
        [], [⟨"H1"⟩], [⟨"2025-01-11", []⟩], "sum", "", []⟩ := by
  exact (c10_flight_failures_not_error_items "serp down" "unused"
    { hotels := [⟨"H1"⟩] } { itinerary := some (.dictDays [⟨"2025-01-11", []⟩]) }
    [⟨"2025-01-11", []⟩] rfl rfl rfl
    ⟨"NYC", "Paris", "2025-01-10", some "2025-01-20", 1, 0, none, none⟩
    "sum" "").2.2.2.1

/-! Concurrency model of the supervisor (factory.py 2025-2044). -/

/-- Task-list construction (factory.py 2027-2035): bare coroutine objects
paired with their names, collected in the fixed order FLIGHTS, HOTELS,
ITINERARY; a coroutine is modelled as the finite sequence of atomic steps
it performs between suspension points. -/
def supervisorTasks (agentsNeeded : List String)
    (fSteps hSteps iSteps : List String) : List (List String) :=
  (if "FLIGHTS" ∈ agentsNeeded then [fSteps] else []) ++
  (if "HOTELS" ∈ agentsNeeded then [hSteps] else []) ++
  (if "ITINERARY" ∈ agentsNeeded then [iSteps] else [])

/-- The await loop (factory.py 2038-2044): `await task` on a bare coroutine
(no `asyncio.create_task`, no `gather`) runs that coroutine to completion
before the loop moves on, so the run's event trace is the concatenation of
the per-agent traces in task order. -/
def supervisorTrace (agentsNeeded : List String)
    (fSteps hSteps iSteps : List String) : List String :=
  (supervisorTasks agentsNeeded fSteps hSteps iSteps).flatten

/-- Modelled from the spec: two concurrently-scheduled tasks awaited as a
group interleave at suspension points — with every step a suspension point
the event loop alternates between the two ready tasks. -/
def interleave : List String → List String → List String
  | [], ys => ys
  | x :: xs, ys =>
    match ys with
    | [] => x :: xs
    | y :: ys2 => x :: y :: interleave xs ys2

/-- C9: with FLIGHTS and HOTELS selected and two suspension-separated steps
each, the code's execution trace is the sequential concatenation — every
flight step precedes every hotel step — and differs from the interleaved
trace concurrent task scheduling would permit; the agents do not run as
concurrently-scheduled tasks despite the docstring. -/
theorem c9_sequential_not_interleaved :
    supervisorTrace ["FLIGHTS", "HOTELS"] ["F1", "F2"] ["H1", "H2"] [] =
      ["F1", "F2", "H1", "H2"] ∧
    interleave ["F1", "F2"] ["H1", "H2"] = ["F1", "H1", "F2", "H2"] ∧
    (["F1", "F2", "H1", "H2"] : List String) ≠ ["F1", "H1", "F2", "H2"] := by
  exact ⟨by decide, by decide, by decide⟩

end PlanGenie
